import Mathlib

/-!
Verification of the SCPI property / waveform-upload core of the
`python-ivi` Rigol DG1022 driver (`ivi/simple.py`, `ivi/rigol/rigolDG1022.py`).

The Python source is shallowly embedded: string manipulation is done on
`String` / `List Char`, Python `float` arithmetic is modelled over `ℚ`
(every numeric input appearing in the claims is a dyadic rational, exactly
representable in binary64, so the rational model agrees with the float
computation on those inputs), Python exceptions become `Except` errors,
and Transport I/O is recorded as an explicit event trace.
-/

/-- Errors that the embedded code can raise.
`valueNotSupported` is `ivi.ValueNotSupportedException`;
`typeError` is Python's built-in `TypeError`;
`indexError` is Python's built-in `IndexError`. -/
inductive PyErr where
  | valueNotSupported
  | typeError
  | indexError
  deriving DecidableEq, Repr

/-- Transport-level I/O events, in issue order.
`ask` is `Transport.ask` (a query), `write` is `Transport.write`,
`writeNum` is a `Transport.write` of a command whose argument is the given
number (the device-side `%e`/`str` text rendering of the number is not
modelled; the numeric value written is), and `writeBlock` is
`Transport.writeBlock` (`_write_ieee_block`) with the raw byte payload and
the directive text placed before it. -/
inductive Ev where
  | ask (cmd : String)
  | write (cmd : String)
  | writeNum (cmd : String) (v : ℚ)
  | writeBlock (directive : String) (payload : List ℕ)
  deriving DecidableEq, Repr

/- ### Decimal rendering of naturals (Python `"%d"` / `"%04d"`) -/

/-- Little-endian base-10 digits, fuel-structured so the kernel can reduce it.
`digitsAux fuel n` computes the digits of `n` provided `n ≤ fuel`. -/
def digitsAux : ℕ → ℕ → List ℕ
  | _, 0 => []
  | 0, _ + 1 => []
  | fuel + 1, n + 1 => (n + 1) % 10 :: digitsAux fuel ((n + 1) / 10)

/-- Little-endian base-10 digits of `n` (empty for `0`). -/
def digitsOf (n : ℕ) : List ℕ := digitsAux n n

/-- The ASCII character of a decimal digit. -/
def digitChar (d : ℕ) : Char := Char.ofNat (48 + d)

/-- Python `"%d" % n` for a natural number. -/
def natStr (n : ℕ) : String :=
  if n = 0 then "0" else String.mk ((digitsOf n).reverse.map digitChar)

/-- The character list of Python `"%04d" % n`: the decimal digits of `n`,
left-padded with `'0'` to a minimum width of four. -/
def fmt04Chars (n : ℕ) : List Char :=
  List.replicate (4 - (digitsOf n).length) '0' ++ (digitsOf n).reverse.map digitChar

/-- Python `"%04d" % n`. -/
def fmt04 (n : ℕ) : String := String.mk (fmt04Chars n)

/-- The candidate waveform handle `"w%04d.wfm" % n`
(rigolDG1022.py line 682). -/
def handleName (n : ℕ) : String := "w" ++ fmt04 n ++ ".wfm"

/- ### Injectivity of the decimal rendering -/

theorem digitsAux_foldl (fuel : ℕ) : ∀ n a, n ≤ fuel →
    List.foldl (fun acc d => acc * 10 + d) a (digitsAux fuel n).reverse =
      a * 10 ^ (digitsAux fuel n).length + n := by
  induction fuel with
  | zero =>
    intro n a h
    interval_cases n
    simp [digitsAux]
  | succ f ih =>
    intro n a h
    match n with
    | 0 => simp [digitsAux]
    | m + 1 =>
      have hq : (m + 1) / 10 ≤ f := by
        have := Nat.div_lt_self (Nat.succ_pos m) (by norm_num : 1 < 10)
        omega
      simp only [digitsAux, List.reverse_cons, List.foldl_append, List.foldl_cons,
        List.foldl_nil, List.length_cons]
      rw [ih ((m + 1) / 10) a hq]
      have hmod := Nat.div_add_mod (m + 1) 10
      ring_nf
      omega

theorem digitsAux_lt_ten (fuel : ℕ) : ∀ n, ∀ d ∈ digitsAux fuel n, d < 10 := by
  induction fuel with
  | zero =>
    intro n d hd
    match n with
    | 0 => simp [digitsAux] at hd
    | m + 1 => simp [digitsAux] at hd
  | succ f ih =>
    intro n d hd
    match n with
    | 0 => simp [digitsAux] at hd
    | m + 1 =>
      simp only [digitsAux, List.mem_cons] at hd
      rcases hd with h | h
      · omega
      · exact ih _ _ h

theorem digitChar_toNat {d : ℕ} (h : d < 10) : (digitChar d).toNat - 48 = d := by
  interval_cases d <;> decide

/-- Parse a character list as a base-10 numeral (left fold, most
significant digit first). Left inverse of the decimal rendering. -/
def parseDigits (l : List Char) : ℕ :=
  l.foldl (fun acc c => acc * 10 + (c.toNat - 48)) 0

theorem foldl_map_digitChar (L : List ℕ) (hL : ∀ d ∈ L, d < 10) : ∀ a : ℕ,
    List.foldl (fun acc c => acc * 10 + (c.toNat - 48)) a (L.map digitChar) =
      List.foldl (fun acc d => acc * 10 + d) a L := by
  induction L with
  | nil => intro a; rfl
  | cons d ds ih =>
    intro a
    simp only [List.map_cons, List.foldl_cons]
    rw [digitChar_toNat (hL d (List.mem_cons_self d ds))]
    exact ih (fun x hx => hL x (List.mem_cons_of_mem d hx)) _

theorem foldl_replicate_zero (k : ℕ) :
    List.foldl (fun acc c => acc * 10 + (c.toNat - 48)) 0 (List.replicate k '0') = 0 := by
  induction k with
  | zero => rfl
  | succ m ih => simpa [List.replicate_succ] using ih

theorem parseDigits_fmt04Chars (n : ℕ) : parseDigits (fmt04Chars n) = n := by
  unfold parseDigits fmt04Chars digitsOf
  rw [List.foldl_append, foldl_replicate_zero,
    foldl_map_digitChar _ (fun d hd => digitsAux_lt_ten n n d (by simpa using hd)),
    digitsAux_foldl n n 0 le_rfl]
  simp

theorem fmt04Chars_injective : Function.Injective fmt04Chars := by
  intro a b h
  have := parseDigits_fmt04Chars a
  rw [h, parseDigits_fmt04Chars b] at this
  omega

theorem handleName_injective : Function.Injective handleName := by
  intro a b h
  unfold handleName fmt04 at h
  have hdata : ('w' :: (fmt04Chars a ++ ".wfm".data)) =
      ('w' :: (fmt04Chars b ++ ".wfm".data)) := by
    have := congrArg String.data h
    simpa [String.data_append] using this
  have h2 : fmt04Chars a ++ ".wfm".data = fmt04Chars b ++ ".wfm".data := by
    simpa using hdata
  exact fmt04Chars_injective (List.append_left_injective _ h2)

/- ### Handle allocation (rigolDG1022.py lines 677-683)

```
self._load_catalog()
have_handle = False
while not have_handle:
    self._arbitrary_waveform_n += 1
    handle = "w%04d.wfm" % self._arbitrary_waveform_n
    have_handle = handle not in self._catalog_names
```

The catalog is loaded exactly once, before the loop.  The loop stops at the
least counter value strictly above the incoming one whose formatted name is
absent from the loaded name list; such a value exists because the catalog
is a finite list and the names are pairwise distinct. -/

theorem exists_handle_not_mem (cat : List String) (c : ℕ) :
    ∃ k, handleName (c + 1 + k) ∉ cat := by
  by_contra hcon
  push_neg at hcon
  have hcard : (Finset.univ : Finset (Fin (cat.length + 1))).card ≤ cat.toFinset.card :=
    Finset.card_le_card_of_injOn
      (fun k : Fin (cat.length + 1) => handleName (c + 1 + k.val))
      (fun k _ => List.mem_toFinset.mpr (hcon k.val))
      (fun a _ b _ hab => Fin.ext (by have := handleName_injective hab; omega))
  have h1 : (Finset.univ : Finset (Fin (cat.length + 1))).card = cat.length + 1 := by
    simp
  have h2 := List.toFinset_card_le cat
  omega

/-- Result of one run of the handle-allocation section of
`_arbitrary_waveform_create`:
the returned handle, the final `_arbitrary_waveform_n` counter, the number
of loop iterations (candidate names tested against the name list), and the
Transport events issued (`_load_catalog` performs one `ask("DATA:CAT?")`
when not simulating). -/
structure AllocResult where
  handle : String
  counter : ℕ
  tried : ℕ
  trace : List Ev
  deriving DecidableEq, Repr

/-- The handle-allocation section of `_arbitrary_waveform_create`
(rigolDG1022.py lines 677-683), for a non-simulated session whose device
catalog name list is `cat` and whose counter `_arbitrary_waveform_n` is `c`.
`Nat.find` is the exit value of the `while` loop: the least counter value
above `c` whose name is not in `cat`, every value in between having been
tested and found present. -/
def allocateUniqueName (cat : List String) (c : ℕ) : AllocResult :=
  let k := Nat.find (exists_handle_not_mem cat c)
  { handle := handleName (c + 1 + k)
    counter := c + 1 + k
    tried := k + 1
    trace := [Ev.ask "DATA:CAT?"] }

/- ### Channel command adaptation (rigolDG1022.py lines 521-540)

```
def _get_command_modified_for_channel(self, command, index):
    if index <= 0:
        return command
    channel_number = index + 1
    if "?" in command:
        command = command.replace("?", ":CH" + str(channel_number) + "?", 1)
    else:
        command = command + ":CH" + channel_number
    return command
```

In the final `else` branch `channel_number` is an `int`, so the
concatenation `command + ":CH" + channel_number` raises `TypeError`
(the query branch converts with `str(...)`; the `else` branch does not). -/

/-- Python `s.replace("?", repl, 1)`: replace the first `'?'` only. -/
def replaceFirstQ (repl : List Char) : List Char → List Char
  | [] => []
  | ch :: rest => if ch = '?' then repl ++ rest else ch :: replaceFirstQ repl rest

/-- Python `str(i)` for an integer. -/
def intStr (i : ℤ) : String :=
  if i < 0 then "-" ++ natStr i.natAbs else natStr i.toNat

/-- `_get_command_modified_for_channel` (rigolDG1022.py lines 521-540).
The channel `index` is an `int`.  The non-query branch raises `TypeError`
because it concatenates a `str` with an `int`. -/
def getCommandModifiedForChannel (command : String) (index : ℤ) : Except PyErr String :=
  if index ≤ 0 then .ok command
  else
    let channelNumber := index + 1
    if '?' ∈ command.data then
      .ok (String.mk (replaceFirstQ ((":CH" ++ intStr channelNumber ++ "?").data) command.data))
    else
      .error .typeError

/- ### Response adjustment (simple.py lines 240-247)

```
def _adjust_response_for_channel(self, response, channel):
    return response
```

The default implementation returns the response unchanged; nothing in
`src/` overrides it. -/

/-- `_adjust_response_for_channel` (simple.py lines 240-247). -/
def adjustResponseForChannel (response : String) (channel : ℕ) : String :=
  response

/- ### Sample quantization (rigolDG1022.py lines 695-710)

```
for f in y:
    # clip at -1 and 1
    if f > 1.0: f = 1.0
    if f < -1.0: f = -1.0
    f = (f + 1) / 2
    # scale to 12 bits
    i = int(f * ((1 << 12) - 2) + 0.5) & 0x000fffff
    # add to raw data, MSB first
    raw_data = raw_data + struct.pack('>H', i)
```
-/

/-- Python `int(q)`: truncation toward zero (floor for nonnegative
arguments, ceiling for negative ones). -/
def pyInt (q : ℚ) : ℤ := if 0 ≤ q then Rat.floor q else Rat.ceil q

/-- The two sequential clipping statements of the sample loop. -/
def clip (f : ℚ) : ℚ :=
  let f1 := if f > 1 then 1 else f
  if f1 < -1 then -1 else f1

/-- The 12-bit code of one sample: map the clipped sample to `[0,1]`,
scale by `(1 << 12) - 2`, round half up via `int(... + 0.5)`, and mask
with `0x000fffff` (Python `&` of an int with `2^20 - 1` is the
nonnegative remainder mod `2^20`). -/
def quantCode (f : ℚ) : ℕ :=
  (pyInt ((clip f + 1) / 2 * ((2 ^ 12 : ℚ) - 2) + 1 / 2) % (2 ^ 20 : ℤ)).toNat

/-- `struct.pack('>H', i)`: the two big-endian bytes of a 16-bit unsigned
integer (all codes produced by `quantCode` are at most `4094 < 2^16`). -/
def pack16be (i : ℕ) : List ℕ := [i / 256, i % 256]

/-- The byte payload accumulated by the sample loop, in sample order. -/
def rawData : List ℚ → List ℕ
  | [] => []
  | f :: rest => pack16be (quantCode f) ++ rawData rest

/-- The quantization map as the specification words it: clamp to
`[-1, 1]`, map to the unit interval, compute
`floor(f' * ((1<<12) - 2) + 0.5) & 0xFFFFF`. -/
def specCode (f : ℚ) : ℕ :=
  (⌊(max (-1) (min 1 f) + 1) / 2 * ((2 ^ 12 : ℚ) - 2) + 1 / 2⌋ % (2 ^ 20 : ℤ)).toNat

/- ### Waveform creation (rigolDG1022.py lines 651-712)

Embedded for the branch the claims exercise: `data` a plain list of sample
amplitudes with no explicit time axis, a non-simulated session (the
function performs its writes unconditionally), device catalog name list
`cat`, incoming `_arbitrary_waveform_n` counter `c`.

The default time axis is `arange(0, len(y)) / 10e6`; its consecutive
differences are the constant `1/10^7`, and the root-mean-square of a
constant nonnegative list is that constant, so the `:wfmpre:xincr` write
carries `1/10^7` (`lemma listDiff_defaultTimeAxis` below substantiates the
constant-difference fact). -/

/-- `numpy.diff`: consecutive differences. -/
def listDiff : List ℚ → List ℚ
  | [] => []
  | [_] => []
  | a :: b :: rest => (b - a) :: listDiff (b :: rest)

/-- `arange(0, n) / 10e6`. -/
def defaultTimeAxis (n : ℕ) : List ℚ :=
  (List.range n).map (fun i : ℕ => (i : ℚ) / 10000000)

theorem listDiff_map_range' : ∀ m k : ℕ,
    listDiff ((List.range' k m).map (fun i : ℕ => (i : ℚ) / 10000000)) =
      List.replicate (m - 1) (1 / 10000000 : ℚ)
  | 0, _ => by simp [listDiff]
  | 1, k => by simp [List.range', listDiff]
  | q + 2, k => by
    have h1 : List.range' k (q + 2) = k :: List.range' (k + 1) (q + 1) := rfl
    have h2 : List.range' (k + 1) (q + 1) = (k + 1) :: List.range' (k + 2) q := rfl
    have ih := listDiff_map_range' (q + 1) (k + 1)
    rw [h1, h2, List.map_cons, List.map_cons, listDiff]
    rw [h2, List.map_cons] at ih
    rw [ih]
    have hv : ((k + 1 : ℕ) : ℚ) / 10000000 - ((k : ℕ) : ℚ) / 10000000 = 1 / 10000000 := by
      push_cast
      ring
    rw [hv]
    rfl

theorem listDiff_defaultTimeAxis (n : ℕ) :
    listDiff (defaultTimeAxis n) = List.replicate (n - 1) (1 / 10000000 : ℚ) := by
  rw [defaultTimeAxis, List.range_eq_range', listDiff_map_range']

/-- `_arbitrary_waveform_create` (rigolDG1022.py lines 651-712) on a plain
sample list with no time axis, returning the result (handle and final
counter) or the raised error, together with the Transport event trace.
The length check `len(y) % self._arbitrary_waveform_quantum != 0`
(quantum 8, set in `__init__`) runs before any Transport call; the
`[_arbitrary_waveform_size_min, _arbitrary_waveform_size_max]` bounds are
never consulted.  Allocation is the `Nat.find` loop of
`allocateUniqueName`; the ten preamble writes and the `:curve ` block
transfer follow. -/
def arbitraryWaveformCreate (cat : List String) (c : ℕ) (y : List ℚ) :
    Except PyErr (String × ℕ) × List Ev :=
  if y.length % 8 ≠ 0 then
    (.error .valueNotSupported, [])
  else
    let alloc := allocateUniqueName cat c
    let handle := alloc.handle
    (.ok (handle, alloc.counter),
      alloc.trace ++
      [Ev.write (":data:destination \"" ++ handle ++ "\""),
       Ev.write ":wfmpre:bit_nr 12",
       Ev.write ":wfmpre:bn_fmt rp",
       Ev.write ":wfmpre:byt_nr 2",
       Ev.write ":wfmpre:byt_or msb",
       Ev.write ":wfmpre:encdg bin",
       Ev.write ":wfmpre:pt_fmt y",
       Ev.write ":wfmpre:yzero 0",
       Ev.writeNum ":wfmpre:ymult" (2 / (2 ^ 12 : ℚ)),
       Ev.writeNum ":wfmpre:xincr" (1 / 10000000 : ℚ),
       Ev.writeBlock ":curve " (rawData y)])

/- ### Arbitrary-waveform reference assignment (rigolDG1022.py lines 611-624)

```
def _set_output_arbitrary_waveform(self, index, value):
    index = ivi.get_index(self._output_name, index)
    value = str(value).lower()
    # extension must be wfm
    ext = value.split('.').pop()
    if ext != 'wfm':
        raise ivi.ValueNotSupportedException()
    # waveform must exist on arb
    self._load_catalog()
    if value not in self._catalog_names:
        raise ivi.ValueNotSupportedException()
    if not self._driver_operation_simulate:
        self._write(":ch%d:waveform \"%s\"" % (index+1, value))
    self._output_arbitrary_waveform[index] = value
```

`ivi.get_index` (external `ivi` module) resolves a channel name or index to
an array index; on the integer indices the claims use it is the identity.
`_load_catalog` (lines 363-373) resets the name list and, when not
simulating, issues one `ask("DATA:CAT?")` and parses the reply; we pass
the parsed device name list in as `cat`. -/

/-- Python `value.split('.').pop()` as a character list: the suffix after
the last `'.'`, or the whole string when it contains no `'.'`. -/
def lastComp (l : List Char) : List Char :=
  (l.reverse.takeWhile (fun ch => ch ≠ '.')).reverse

/-- Python `str.lower()` (ASCII-compatible on the names involved). -/
def pyLower (s : String) : String := String.mk (s.data.map Char.toLower)

/-- Outcome of `_set_output_arbitrary_waveform`: raised error or success,
the `_output_arbitrary_waveform` cache list afterwards, and the Transport
events issued. -/
structure SetArbResult where
  result : Except PyErr Unit
  arbCache : List String
  trace : List Ev
  deriving Repr

/-- `_set_output_arbitrary_waveform` (rigolDG1022.py lines 611-624) with
device catalog name list `cat`, resolved channel index `index`, requested
handle `value0`, current `_output_arbitrary_waveform` list `arb`, and
simulation flag `sim`. -/
def setOutputArbitraryWaveform (cat : List String) (index : ℕ) (value0 : String)
    (arb : List String) (sim : Bool) : SetArbResult :=
  let value := pyLower value0
  let ext := lastComp value.data
  if ext ≠ "wfm".data then
    { result := .error .valueNotSupported, arbCache := arb, trace := [] }
  else
    let names := if sim then [] else cat
    let loadTrace : List Ev := if sim then [] else [Ev.ask "DATA:CAT?"]
    if value ∉ names then
      { result := .error .valueNotSupported, arbCache := arb, trace := loadTrace }
    else
      { result := .ok ()
        arbCache := arb.set index value
        trace := loadTrace ++ (if sim then [] else
          [Ev.write (":ch" ++ natStr (index + 1) ++ ":waveform \"" ++ value ++ "\"")]) }

/- ### Generic property write and the cache (simple.py lines 112-133,
rigolDG1022.py lines 179-198)

```
def set_indexed_property(self, index, value):
    ...
    request = request_formatter(value)
    if not self._driver_operation_simulate:
        self._write(command + " " + request)
    getattr(self, property_name)[index] = value
    self._set_cache_valid(tag=property_name, index=index)
```

There is no try/except around `self._write`: when the Transport write
raises, the exception propagates out of `set_indexed_property` and the two
cache-update statements after it never execute. -/

/-- One cache entry: last written/read value and its validity flag
(spec §3, `CacheEntry`). -/
structure CacheEntry where
  value : Option ℚ
  valid : Bool
  deriving DecidableEq, Repr

/-- The tail of `set_indexed_property` for a fixed attribute and channel,
with the adapted command `cmd` already built.  `writeRaises` is the
behaviour of `self._write` on this call: `true` means the Transport write
raises, and the raised error propagates (first component) with the
statements after the write skipped. -/
def setIndexedProperty (sim writeRaises : Bool) (cmd : String) (v : ℚ)
    (entry : CacheEntry) : Except Unit Unit × CacheEntry × List Ev :=
  if !sim then
    if writeRaises then (.error (), entry, [])
    else (.ok (), { value := some v, valid := true }, [Ev.writeNum cmd v])
  else (.ok (), { value := some v, valid := true }, [])

/- ### Device-wide vs per-channel cache invalidation
(rigolDG1022.py lines 556-564 and 473-479)

```
def _set_output_standard_waveform_frequency(self, index, value):
    index = ivi.get_index(self._output_name, index)
    value = float(value)
    if not self._driver_operation_simulate:
        self._write(":fg:frequency %e" % value)
    self._output_standard_waveform_frequency[index] = value
    for k in range(self._output_count):
        self._set_cache_valid(valid=False,index=k)
    self._set_cache_valid(index=index)

def _set_output_standard_waveform_dc_offset(self, index, value):
    index = ivi.get_index(self._output_name, index)
    value = float(value)
    if not self._driver_operation_simulate:
        self._write(":fg:ch%d:offset %e" % (index+1, value))
    self._output_standard_waveform_dc_offset[index] = value
    self._set_cache_valid(index=index)
```

`_set_cache_valid` lives in the external `ivi` module.  Modelled from the
spec: a `CacheEntry` is keyed by `(attributeName, channelIndex)`
(spec §3), and `_set_cache_valid(valid, index)` inside the setter of an
attribute sets that attribute's validity flag for channel `index`.
`self._output_count` is 2 (`__init__`). -/

/-- Per-channel cached values and validity flags of one attribute. -/
structure ChanCache where
  vals : List ℚ
  valid : List Bool
  deriving DecidableEq, Repr

/-- `_set_output_standard_waveform_frequency` (rigolDG1022.py lines
556-564): write, store the value, invalidate the attribute's entry on
every channel (`for k in range(2)`), then mark the written channel
valid. -/
def setOutputStandardWaveformFrequency (index : ℕ) (v : ℚ) (st : ChanCache)
    (sim : Bool) : ChanCache × List Ev :=
  let tr : List Ev := if sim then [] else [Ev.writeNum ":fg:frequency" v]
  let invalidated := (List.range 2).foldl (fun l k => l.set k false) st.valid
  ({ vals := st.vals.set index v, valid := invalidated.set index true }, tr)

/-- `_set_output_standard_waveform_dc_offset` (rigolDG1022.py lines
473-479): write, store the value, mark only the written channel valid. -/
def setOutputStandardWaveformDcOffset (index : ℕ) (v : ℚ) (st : ChanCache)
    (sim : Bool) : ChanCache × List Ev :=
  let tr : List Ev := if sim then []
    else [Ev.writeNum (":fg:ch" ++ natStr (index + 1) ++ ":offset") v]
  ({ vals := st.vals.set index v, valid := st.valid.set index true }, tr)

/- ### The registered SCPI amplitude property (rigolDG1022.py lines 57 and
172-241)

`__init__` registers exactly one property through the SCPI machinery:

```
self._implement_scpi_methods('_output_standard_waveform_amplitude',
                             "VOLT?", "VOLT",
                             lambda x : float(x), lambda x : str(x), True)
```

`_generate_scpi_methods` (rigolDG1022.py lines 172-241) produces the
indexed getter/setter below.  Both resolve the channel with
`ivi.get_index` (modelled from the spec as the identity on integer channel
indices in `[0, outputCount)`) and then build the channel-adapted command
with `_get_command_modified_for_channel` BEFORE the simulation check, so a
`TypeError` raised there propagates even in a simulated session. -/

/-- The generated `set_indexed_property` for
`_output_standard_waveform_amplitude` (set template `"VOLT"`). -/
def amplitudeSet (sim : Bool) (index : ℕ) (v : ℚ) (st : ChanCache) :
    Except PyErr Unit × ChanCache × List Ev :=
  match getCommandModifiedForChannel "VOLT" (index : ℤ) with
  | .error e => (.error e, st, [])
  | .ok cmd =>
    let tr : List Ev := if sim then [] else [Ev.writeNum cmd v]
    (.ok (), { vals := st.vals.set index v, valid := st.valid.set index true }, tr)

/-- The generated `get_indexed_property` for
`_output_standard_waveform_amplitude` (get template `"VOLT?"`).
`deviceResp` is the parsed (`float`) reply the device would give if the
non-simulated query branch runs. -/
def amplitudeGet (sim : Bool) (index : ℕ) (st : ChanCache) (deviceResp : ℚ) :
    Except PyErr ℚ × ChanCache × List Ev :=
  match getCommandModifiedForChannel "VOLT?" (index : ℤ) with
  | .error e => (.error e, st, [])
  | .ok cmd =>
    if !sim && !(st.valid.getD index false) then
      (.ok deviceResp,
       { vals := st.vals.set index deviceResp, valid := st.valid.set index true },
       [Ev.ask cmd])
    else
      if h : index < st.vals.length then (.ok (st.vals.get ⟨index, h⟩), st, [])
      else (.error .indexError, st, [])

/- ### Output impedance (rigolDG1022.py lines 404-412)

```
def _get_output_impedance(self, index):
    index = ivi.get_index(self._output_name, index)
    self._output_impedance[index] = 50
    return self._output_impedance[index]

def _set_output_impedance(self, index, value):
    index = ivi.get_index(self._output_name, index)
    value = 50
    self._output_impedance[index] = value
```

Neither method touches the Transport.  A Python list assignment at an
out-of-range index raises `IndexError`. -/

/-- `_get_output_impedance`: stores 50 into the slot, then returns it. -/
def getOutputImpedance (index : ℕ) (imped : List ℚ) :
    Except PyErr ℚ × List ℚ × List Ev :=
  if h : index < imped.length then
    (.ok ((imped.set index 50).get ⟨index, by simpa using h⟩), imped.set index 50, [])
  else (.error .indexError, imped, [])

/-- `_set_output_impedance`: discards the supplied value and stores 50. -/
def setOutputImpedance (index : ℕ) (v : ℚ) (imped : List ℚ) :
    Except PyErr Unit × List ℚ × List Ev :=
  if index < imped.length then (.ok (), imped.set index 50, [])
  else (.error .indexError, imped, [])

/- ### Quantization theory -/

theorem ratFloor_eq (q : ℚ) : Rat.floor q = ⌊q⌋ := by
  rw [Rat.floor_def', Rat.floor_def]

theorem clip_eq (f : ℚ) : clip f = max (-1) (min 1 f) := by
  simp only [clip, max_def, min_def]
  split_ifs <;> linarith

theorem neg_one_le_clip (f : ℚ) : -1 ≤ clip f := by
  rw [clip_eq]; exact le_max_left _ _

theorem clip_le_one (f : ℚ) : clip f ≤ 1 := by
  rw [clip_eq]
  exact max_le (by norm_num) (min_le_left _ _)

theorem quantScaled_nonneg (f : ℚ) :
    (0 : ℚ) ≤ (clip f + 1) / 2 * ((2 ^ 12 : ℚ) - 2) + 1 / 2 := by
  have := neg_one_le_clip f
  nlinarith

/-- The mask `& 0x000fffff` is the identity on the codes the loop
produces: the pre-mask value lies in `[0, 4094] ⊆ [0, 2^20)`. -/
theorem quantCode_eq_floor (f : ℚ) :
    quantCode f = (⌊(clip f + 1) / 2 * ((2 ^ 12 : ℚ) - 2) + 1 / 2⌋).toNat := by
  have h0 := quantScaled_nonneg f
  have hfl : (0 : ℤ) ≤ ⌊(clip f + 1) / 2 * ((2 ^ 12 : ℚ) - 2) + 1 / 2⌋ :=
    Int.floor_nonneg.mpr h0
  have hub : ⌊(clip f + 1) / 2 * ((2 ^ 12 : ℚ) - 2) + 1 / 2⌋ < (2 ^ 20 : ℤ) := by
    have hle : (clip f + 1) / 2 * ((2 ^ 12 : ℚ) - 2) + 1 / 2 ≤ 4094 + 1 / 2 := by
      have := clip_le_one f
      nlinarith
    have hmono := Int.floor_mono hle
    have h2 : ⌊(4094 + 1 / 2 : ℚ)⌋ = 4094 := by norm_num
    omega
  unfold quantCode pyInt
  rw [if_pos h0, ratFloor_eq, Int.emod_eq_of_lt hfl hub]

theorem quantCode_mono {f g : ℚ} (h : f ≤ g) : quantCode f ≤ quantCode g := by
  rw [quantCode_eq_floor, quantCode_eq_floor]
  have hc : clip f ≤ clip g := by
    rw [clip_eq, clip_eq]
    exact max_le_max le_rfl (min_le_min le_rfl h)
  exact Int.toNat_le_toNat (Int.floor_mono (by nlinarith))

theorem quantCode_eq_specCode (f : ℚ) : quantCode f = specCode f := by
  have h0 := quantScaled_nonneg f
  unfold quantCode specCode pyInt
  rw [if_pos h0, ratFloor_eq, clip_eq]

theorem quantCode_le_4094 (f : ℚ) : quantCode f ≤ 4094 := by
  rw [quantCode_eq_floor]
  have hle : (clip f + 1) / 2 * ((2 ^ 12 : ℚ) - 2) + 1 / 2 ≤ 4094 + 1 / 2 := by
    have := clip_le_one f
    nlinarith
  have hmono := Int.floor_mono hle
  have h2 : ⌊(4094 + 1 / 2 : ℚ)⌋ = 4094 := by norm_num
  omega

/- ### Concrete `Nat.find` evaluations for the allocation loop -/

theorem find_empty_catalog : Nat.find (exists_handle_not_mem [] 0) = 0 := by
  rw [Nat.find_eq_iff]
  refine ⟨by simp, ?_⟩
  intro n hn
  omega

theorem find_one_collision : Nat.find (exists_handle_not_mem ["w0001.wfm"] 0) = 1 := by
  rw [Nat.find_eq_iff]
  refine ⟨by decide, ?_⟩
  intro n hn
  interval_cases n
  decide

/- ### Claim theorems -/

/-- C1: quantization clamps each sample to `[-1, 1]`, maps it to the unit
interval, computes `floor(f' * ((1<<12) - 2) + 0.5) & 0xFFFFF`
(`quantCode = specCode`), is monotonic in the sample, sends `-1, 0, 1` to
`0, 2047, 4094`, sends the sample list
`[-1, -0.5, 0, 0.5, 1, 0.75, -0.75, 0]` to the code sequence
`[0, 1024, 2047, 3071, 4094, 3582, 512, 2047]`, and serializes each code
as two big-endian bytes concatenated in sample order. -/
theorem c1_quantization_encoding (f g : ℚ) (h : f ≤ g) :
    quantCode f ≤ quantCode g ∧
    quantCode f = specCode f ∧
    quantCode (-1) = 0 ∧
    quantCode 0 = 2047 ∧
    quantCode 1 = 4094 ∧
    ([(-1 : ℚ), -1/2, 0, 1/2, 1, 3/4, -3/4, 0].map quantCode =
      [0, 1024, 2047, 3071, 4094, 3582, 512, 2047]) ∧
    rawData [(-1 : ℚ), -1/2, 0, 1/2, 1, 3/4, -3/4, 0] =
      [0, 0, 4, 0, 7, 255, 11, 255, 15, 254, 13, 254, 2, 0, 7, 255] ∧
    (∀ (s : ℚ) (rest : List ℚ),
      rawData (s :: rest) = pack16be (quantCode s) ++ rawData rest) := by
  have e1 : quantCode (-1) = 0 := by
    norm_num [quantCode, clip, pyInt, ratFloor_eq]
  have e2 : quantCode (-1/2) = 1024 := by
    norm_num [quantCode, clip, pyInt, ratFloor_eq]
    all_goals decide
  have e3 : quantCode 0 = 2047 := by
    norm_num [quantCode, clip, pyInt, ratFloor_eq]
    all_goals decide
  have e4 : quantCode (1/2) = 3071 := by
    norm_num [quantCode, clip, pyInt, ratFloor_eq]
    all_goals decide
  have e5 : quantCode 1 = 4094 := by
    norm_num [quantCode, clip, pyInt, ratFloor_eq]
    all_goals decide
  have e6 : quantCode (3/4) = 3582 := by
    norm_num [quantCode, clip, pyInt, ratFloor_eq]
    all_goals decide
  have e7 : quantCode (-3/4) = 512 := by
    norm_num [quantCode, clip, pyInt, ratFloor_eq]
    all_goals decide
  refine ⟨quantCode_mono h, quantCode_eq_specCode f, e1, e3, e5, ?_, ?_, fun s rest => rfl⟩
  · simp only [List.map_cons, List.map_nil, e1, e2, e3, e4, e5, e6, e7]
  · simp only [rawData, pack16be, e1, e2, e3, e4, e5, e6, e7]
    decide

/-- Witness for C1: the monotonicity hypothesis discharged at
`f = -1 ≤ 1 = g`. -/
theorem c1_witness : quantCode (-1) ≤ quantCode 1 :=
  (c1_quantization_encoding (-1) 1 (by norm_num)).1

/-- C2 (amended): `allocateUniqueName` never returns a name in the catalog
at call time; the returned handle is `"w%04d.wfm"` of the final counter;
the counter strictly increases across the call and across two sequential
calls (no counter value is reused); the catalog is loaded exactly once per
call (one `ask("DATA:CAT?")` in the trace) — before the loop, not before
each candidate; when the first candidate is free it is returned, and with
counter 0 and an empty catalog the first allocation returns
`"w0001.wfm"`. -/
theorem c2_allocate_unique (cat cat2 : List String) (c : ℕ) :
    (allocateUniqueName cat c).handle ∉ cat ∧
    (allocateUniqueName cat c).handle = handleName (allocateUniqueName cat c).counter ∧
    c < (allocateUniqueName cat c).counter ∧
    (allocateUniqueName cat c).counter <
      (allocateUniqueName cat2 (allocateUniqueName cat c).counter).counter ∧
    (allocateUniqueName cat c).trace = [Ev.ask "DATA:CAT?"] ∧
    (handleName (c + 1) ∉ cat → (allocateUniqueName cat c).handle = handleName (c + 1)) ∧
    (allocateUniqueName [] 0).handle = "w0001.wfm" := by
  have hlt : ∀ (catx : List String) (cx : ℕ), cx < (allocateUniqueName catx cx).counter := by
    intro catx cx
    show cx < cx + 1 + Nat.find (exists_handle_not_mem catx cx)
    omega
  refine ⟨?_, rfl, hlt cat c, hlt cat2 _, rfl, ?_, ?_⟩
  · exact Nat.find_spec (exists_handle_not_mem cat c)
  · intro h0
    have hf : Nat.find (exists_handle_not_mem cat c) = 0 :=
      (Nat.find_eq_zero _).mpr (by simpa using h0)
    show handleName (c + 1 + Nat.find (exists_handle_not_mem cat c)) = handleName (c + 1)
    rw [hf]
  · show handleName (0 + 1 + Nat.find (exists_handle_not_mem [] 0)) = "w0001.wfm"
    rw [find_empty_catalog]
    decide

/-- Witness for C2: the first-candidate hypothesis discharged on the empty
catalog. -/
theorem c2_witness : (allocateUniqueName [] 5).handle = handleName 6 :=
  (c2_allocate_unique [] [] 5).2.2.2.2.2.1 (by decide)

/-- C2 counterexample: with catalog `["w0001.wfm"]` and counter 0 the loop
tests two candidates (`"w0001.wfm"` is present, `"w0002.wfm"` is not) but
the trace holds a single catalog load, so the catalog is NOT reloaded
before each candidate as the claim states. -/
theorem c2_counterexample :
    (allocateUniqueName ["w0001.wfm"] 0).tried = 2 ∧
    (allocateUniqueName ["w0001.wfm"] 0).trace.length = 1 ∧
    ¬ ((allocateUniqueName ["w0001.wfm"] 0).tried ≤
        (allocateUniqueName ["w0001.wfm"] 0).trace.length) := by
  have ht : (allocateUniqueName ["w0001.wfm"] 0).tried = 2 := by
    show Nat.find (exists_handle_not_mem ["w0001.wfm"] 0) + 1 = 2
    rw [find_one_collision]
  refine ⟨ht, rfl, ?_⟩
  rw [ht]
  decide

/-- C3 (amended): a sample sequence whose length is not a multiple of the
quantum 8 makes `_arbitrary_waveform_create` raise
`ValueNotSupportedException` with an empty Transport trace (no write, ask,
or block transfer); the `[64, 256*1024]` size bounds are not checked. -/
theorem c3_quantum_check (cat : List String) (c : ℕ) (y : List ℚ)
    (h : y.length % 8 ≠ 0) :
    arbitraryWaveformCreate cat c y = (.error .valueNotSupported, []) := by
  simp [arbitraryWaveformCreate, h]

/-- Witness for C3: a length-7 sequence fails before any Transport call. -/
theorem c3_witness :
    arbitraryWaveformCreate [] 0 (List.replicate 7 0) = (.error .valueNotSupported, []) :=
  c3_quantum_check [] 0 _ (by decide)

/-- C3 counterexample: a length-8 sequence lies outside
`[minSize, maxSize] = [64, 262144]`, yet creation succeeds (returning
`"w0001.wfm"`) and performs Transport I/O instead of failing with a size
error as the claim states. -/
theorem c3_counterexample :
    (List.replicate 8 (0 : ℚ)).length < 64 ∧
    (arbitraryWaveformCreate [] 0 (List.replicate 8 0)).1 = .ok ("w0001.wfm", 1) ∧
    (arbitraryWaveformCreate [] 0 (List.replicate 8 0)).2 ≠ [] := by
  refine ⟨by decide, ?_, ?_⟩
  · show Except.ok (handleName (0 + 1 + Nat.find (exists_handle_not_mem [] 0)),
      0 + 1 + Nat.find (exists_handle_not_mem [] 0)) = _
    rw [find_empty_catalog]
    exact congrArg Except.ok (by decide)
  · show (Ev.ask "DATA:CAT?" :: _) ≠ ([] : List Ev)
    exact List.cons_ne_nil _ _

/-- C4 (code bug): `_get_command_modified_for_channel` returns the
template unchanged for channel 0 and, for a query template on channel 1,
inserts `:CH2` immediately before the first query marker; but for a
non-query template on channel 1 it raises `TypeError` instead of
appending `:CH2`, because `command + ":CH" + channel_number` concatenates
a `str` with an `int` (the query branch converts with `str(...)`; the
append branch does not). -/
theorem c4_command_adaptation :
    (∀ cmd : String, getCommandModifiedForChannel cmd 0 = .ok cmd) ∧
    getCommandModifiedForChannel "VOLT?" 1 = .ok "VOLT:CH2?" ∧
    (∀ n : ℕ, getCommandModifiedForChannel "VOLT?" ((n : ℤ) + 1) =
      .ok ("VOLT:CH" ++ intStr ((n : ℤ) + 2) ++ "?")) ∧
    getCommandModifiedForChannel "VOLT" 1 = .error .typeError := by
  refine ⟨fun cmd => rfl, rfl, fun n => ?_, rfl⟩
  have hpos : ¬ ((n : ℤ) + 1 ≤ 0) := by omega
  simp only [getCommandModifiedForChannel, if_neg hpos]
  have hq : '?' ∈ "VOLT?".data := by decide
  rw [if_pos hq]
  have harith : (n : ℤ) + 1 + 1 = (n : ℤ) + 2 := by ring
  rw [harith]
  generalize intStr ((n : ℤ) + 2) = S
  refine congrArg Except.ok ?_
  refine congrArg String.mk ?_
  simp only [String.data_append]
  generalize S.data = X
  show replaceFirstQ (([':', 'C', 'H'] ++ X) ++ ['?']) ['V', 'O', 'L', 'T', '?'] =
    (['V', 'O', 'L', 'T', ':', 'C', 'H'] ++ X) ++ ['?']
  simp [replaceFirstQ]

/-- C5 (amended): the default `_adjust_response_for_channel` returns
every response unchanged for every channel; no prefix stripping occurs
anywhere in the source. -/
theorem c5_adjust_response_identity (response : String) (channel : ℕ) :
    adjustResponseForChannel response channel = response := rfl

/-- C5 counterexample: the response `"CH2:1.0"` on channel 1 begins with
the channel's wire prefix `"CH2:"`, yet the code returns it unchanged
rather than stripping it to `"1.0"` as the claim states. -/
theorem c5_counterexample :
    List.isPrefixOf "CH2:".data "CH2:1.0".data = true ∧
    adjustResponseForChannel "CH2:1.0" 1 = "CH2:1.0" ∧
    adjustResponseForChannel "CH2:1.0" 1 ≠ "1.0" := by
  refine ⟨by decide, rfl, by decide⟩

/-- C6 (amended): `_set_output_arbitrary_waveform` raises
`ValueNotSupportedException` before any Transport use whenever the
lowercased handle's final `.`-separated component differs from `"wfm"`
(this admits the dotless handle `"wfm"` itself, not only `*.wfm` names);
raises after one catalog reload when the handle is absent from the
just-reloaded catalog, with no Transport write; and on success writes the
device command and only then commits the value to the channel's cache
slot.  In every failure case the cached list is unchanged and no
Transport write occurs. -/
theorem c6_reference_validation (cat : List String) (index : ℕ) (v : String)
    (arb : List String) :
    (lastComp (pyLower v).data ≠ "wfm".data →
      setOutputArbitraryWaveform cat index v arb false =
        ⟨.error .valueNotSupported, arb, []⟩) ∧
    (lastComp (pyLower v).data = "wfm".data → pyLower v ∉ cat →
      setOutputArbitraryWaveform cat index v arb false =
        ⟨.error .valueNotSupported, arb, [Ev.ask "DATA:CAT?"]⟩) ∧
    (lastComp (pyLower v).data = "wfm".data → pyLower v ∈ cat →
      setOutputArbitraryWaveform cat index v arb false =
        ⟨.ok (), arb.set index (pyLower v),
         [Ev.ask "DATA:CAT?",
          Ev.write (":ch" ++ natStr (index + 1) ++ ":waveform \"" ++ pyLower v ++ "\"")]⟩) := by
  refine ⟨fun h1 => ?_, fun h1 h2 => ?_, fun h1 h2 => ?_⟩
  · simp [setOutputArbitraryWaveform, h1]
  · simp [setOutputArbitraryWaveform, h1, h2]
  · simp [setOutputArbitraryWaveform, h1, h2]

/-- Witness for C6: a catalogued upper-case `.wfm` handle is lowercased,
validated against the reloaded catalog, written, and cached. -/
theorem c6_witness :
    setOutputArbitraryWaveform ["a.wfm"] 0 "A.WFM" ["x"] false =
      ⟨.ok (), ["a.wfm"], [Ev.ask "DATA:CAT?", Ev.write ":ch1:waveform \"a.wfm\""]⟩ :=
  (c6_reference_validation ["a.wfm"] 0 "A.WFM" ["x"]).2.2 (by decide) (by decide)

/-- C6 counterexample: the handle `"wfm"` lacks the `.wfm` filename
extension (it is not even of the form `*.wfm`), yet with a catalog
containing `"wfm"` the assignment succeeds, performs a Transport write and
updates the cache — the claim says it raises regardless of catalog
contents. -/
theorem c6_counterexample :
    List.isSuffixOf ".wfm".data "wfm".data = false ∧
    (setOutputArbitraryWaveform ["wfm"] 0 "wfm" ["x"] false).result = .ok () ∧
    (setOutputArbitraryWaveform ["wfm"] 0 "wfm" ["x"] false).arbCache = ["wfm"] ∧
    (setOutputArbitraryWaveform ["wfm"] 0 "wfm" ["x"] false).trace =
      [Ev.ask "DATA:CAT?", Ev.write ":ch1:waveform \"wfm\""] := by
  exact ⟨by decide, rfl, rfl, rfl⟩

/-- C7 (amended): in a non-simulated session, when the Transport write
raises, the exception propagates and the cache entry is left exactly as it
was (not updated, not revalidated); the cache entry is updated to the
written value and marked valid only when the write returns (or when
simulating, where no write is attempted).  The claim's "updated even when
the write raises" does not hold. -/
theorem c7_cache_update_on_write (writeRaises : Bool) (cmd : String) (v : ℚ)
    (entry : CacheEntry) :
    setIndexedProperty false true cmd v entry = (.error (), entry, []) ∧
    setIndexedProperty false false cmd v entry =
      (.ok (), { value := some v, valid := true }, [Ev.writeNum cmd v]) ∧
    setIndexedProperty true writeRaises cmd v entry =
      (.ok (), { value := some v, valid := true }, []) :=
  ⟨rfl, rfl, rfl⟩

/-- C7 counterexample: a raising write leaves the stale entry
`{value := some 1, valid := false}` in place, which differs from the
claimed post-state `{value := some 2, valid := true}`. -/
theorem c7_counterexample :
    (setIndexedProperty false true "VOLT" 2 { value := some 1, valid := false }).2.1 =
      { value := some 1, valid := false } ∧
    ({ value := some 1, valid := false } : CacheEntry) ≠
      { value := some 2, valid := true } := by
  refine ⟨rfl, ?_⟩
  intro hcon
  have := congrArg CacheEntry.valid hcon
  simp at this

/-- C8: writing the device-wide frequency attribute on channel `i`
invalidates that attribute's cache entry on every other channel and marks
only channel `i` valid, whereas writing the per-channel DC offset marks
channel `i` valid and leaves every other channel's validity flag and
cached value untouched. -/
theorem c8_cross_invalidation (i : ℕ) (hi : i < 2) (v : ℚ) (st : ChanCache)
    (hlen : st.valid.length = 2) (sim : Bool) :
    ((setOutputStandardWaveformFrequency i v st sim).1.valid)[i]? = some true ∧
    (∀ k, k < 2 → k ≠ i →
      ((setOutputStandardWaveformFrequency i v st sim).1.valid)[k]? = some false) ∧
    ((setOutputStandardWaveformDcOffset i v st sim).1.valid)[i]? = some true ∧
    (∀ k, k ≠ i →
      ((setOutputStandardWaveformDcOffset i v st sim).1.valid)[k]? = st.valid[k]?) ∧
    (∀ k, k ≠ i →
      ((setOutputStandardWaveformDcOffset i v st sim).1.vals)[k]? = st.vals[k]?) := by
  have hfold : (List.range 2).foldl (fun acc k => acc.set k false) st.valid =
      (st.valid.set 0 false).set 1 false := rfl
  refine ⟨?_, ?_, ?_, ?_, ?_⟩
  · show ((((List.range 2).foldl (fun acc k => acc.set k false) st.valid)).set i true)[i]? =
      some true
    rw [hfold]
    exact List.getElem?_set_eq_of_lt _ (by simp [hlen, hi])
  · intro k hk hki
    show ((((List.range 2).foldl (fun acc k => acc.set k false) st.valid)).set i true)[k]? =
      some false
    rw [hfold, List.getElem?_set_ne (by omega : i ≠ k)]
    interval_cases k
    · rw [List.getElem?_set_ne (by omega : (1 : ℕ) ≠ 0)]
      exact List.getElem?_set_eq_of_lt _ (by omega)
    · exact List.getElem?_set_eq_of_lt _ (by simp [hlen])
  · show (st.valid.set i true)[i]? = some true
    exact List.getElem?_set_eq_of_lt _ (by omega)
  · intro k hki
    show (st.valid.set i true)[k]? = st.valid[k]?
    exact List.getElem?_set_ne (by omega)
  · intro k hki
    show (st.vals.set i v)[k]? = st.vals[k]?
    exact List.getElem?_set_ne (by omega)

/-- Witness for C8 at channel 0 with a fully valid two-channel cache:
after a frequency write on channel 0, channel 1's entry is invalid. -/
theorem c8_witness :
    ((setOutputStandardWaveformFrequency 0 5
        { vals := [1, 2], valid := [true, true] } true).1.valid)[1]? = some false :=
  (c8_cross_invalidation 0 (by decide) 5 { vals := [1, 2], valid := [true, true] }
    (by decide) true).2.1 1 (by decide) (by decide)

/-- C9 (code bug): for the one attribute registered through the SCPI
machinery (`_output_standard_waveform_amplitude`, set template `"VOLT"`),
a simulated-session `set` on channel 1 raises `TypeError` while building
the channel-adapted command — before the simulation check — leaving the
cache unchanged and reaching no Transport call, so `set(v)` then `get()`
cannot return `v`; on channel 0 the simulated round trip does hold, with
no Transport events. -/
theorem c9_simulated_roundtrip (v d : ℚ) :
    (amplitudeSet true 1 v { vals := [0, 0], valid := [false, false] }).1 =
      .error .typeError ∧
    (amplitudeSet true 1 v { vals := [0, 0], valid := [false, false] }).2.1 =
      { vals := [0, 0], valid := [false, false] } ∧
    (amplitudeSet true 1 v { vals := [0, 0], valid := [false, false] }).2.2 = [] ∧
    (amplitudeSet true 0 v { vals := [0, 0], valid := [false, false] }).1 = .ok () ∧
    (amplitudeSet true 0 v { vals := [0, 0], valid := [false, false] }).2.2 = [] ∧
    (amplitudeGet true 0
      ((amplitudeSet true 0 v { vals := [0, 0], valid := [false, false] }).2.1) d).1 =
      .ok v ∧
    (amplitudeGet true 0
      ((amplitudeSet true 0 v { vals := [0, 0], valid := [false, false] }).2.1) d).2.2 =
      [] :=
  ⟨rfl, rfl, rfl, rfl, rfl, rfl, rfl⟩

/-- C10: the impedance getter always returns 50 and the setter stores the
constant 50, ignoring the supplied value; neither touches the
Transport. -/
theorem c10_impedance_constant (index : ℕ) (v : ℚ) (imped : List ℚ)
    (h : index < imped.length) :
    (getOutputImpedance index imped).1 = .ok 50 ∧
    (getOutputImpedance index imped).2.2 = [] ∧
    (setOutputImpedance index v imped).1 = .ok () ∧
    (setOutputImpedance index v imped).2.1 = imped.set index 50 ∧
    ((setOutputImpedance index v imped).2.1)[index]? = some 50 ∧
    (setOutputImpedance index v imped).2.2 = [] := by
  refine ⟨?_, ?_, ?_, ?_, ?_, ?_⟩
  · simp only [getOutputImpedance, dif_pos h]
    rw [List.get_set_eq]
  · simp [getOutputImpedance, dif_pos h]
  · simp [setOutputImpedance, if_pos h]
  · simp [setOutputImpedance, if_pos h]
  · simp only [setOutputImpedance, if_pos h]
    exact List.getElem?_set_eq_of_lt _ h
  · simp [setOutputImpedance, if_pos h]

/-- Witness for C10: a channel whose stored impedance was 75 still reads
back 50, and a set of 600 stores 50. -/
theorem c10_witness :
    (getOutputImpedance 0 [75]).1 = .ok 50 ∧
    (setOutputImpedance 0 600 [75]).2.1 = [75].set 0 50 :=
  ⟨(c10_impedance_constant 0 600 [75] (by decide)).1,
   (c10_impedance_constant 0 600 [75] (by decide)).2.2.2.1⟩
